import Mathlib

/-!
Shallow embedding of the walkingpad-js core library, verified against its
natural-language specification.

Conventions of the embedding:
* JS byte buffers (`Uint8Array` contents) are `List (Fin 256)`.
* JS numbers are modelled as `JSNum`: a finite rational or a non-finite
  value (`NaN`, `Infinity`, `-Infinity`).  `Number.isFinite` becomes
  `JSNum.isFinite`.
* `Math.floor` on a finite value is `Int.floor` on the rational;
  `Math.round` (round half toward positive infinity) is `⌊q + 1/2⌋`.
* Functions that `throw` are embedded with `Except`.
-/

/-- Model of a JS number: either a finite rational or one of the three
non-finite values. -/
inductive JSNum where
  | num (q : ℚ)
  | nan
  | posInf
  | negInf
deriving DecidableEq, Repr

/-- `Number.isFinite`. -/
def JSNum.isFinite : JSNum → Bool
  | .num _ => true
  | _ => false

/-- JS `Math.round`: rounds half toward positive infinity. -/
def jsRound (q : ℚ) : ℤ := ⌊q + 1 / 2⌋

/-! `Math.min` / `Math.max` on finite values, written as explicit
conditionals so that the kernel can evaluate them on concrete rationals
(Mathlib's lattice `min`/`max` on `ℚ` does not kernel-reduce). -/

/-- `Math.min` on two finite JS numbers. -/
def jsMin (a b : ℚ) : ℚ := if a ≤ b then a else b

/-- `Math.max` on two finite JS numbers. -/
def jsMax (a b : ℚ) : ℚ := if a ≤ b then b else a

/-- `Math.min` on two integers. -/
def jsMinI (a b : ℤ) : ℤ := if a ≤ b then a else b

/-- `Math.max` on two integers. -/
def jsMaxI (a b : ℤ) : ℤ := if a ≤ b then b else a

/-! ## src/types.ts — value clamps and the treadmill state -/

/-- `MAX_SPEED_KMH` from src/types.ts. -/
def MAX_SPEED_KMH : ℚ := 25
/-- `MAX_TIME_SECONDS` from src/types.ts. -/
def MAX_TIME_SECONDS : ℤ := 86400
/-- `MAX_DISTANCE_KM` from src/types.ts. -/
def MAX_DISTANCE_KM : ℚ := 100
/-- `MAX_STEPS` from src/types.ts. -/
def MAX_STEPS : ℤ := 200000

/-- `clampSpeed` from src/types.ts: non-finite ↦ 0, else
`Math.max(0, Math.min(value, MAX_SPEED_KMH))`. -/
def clampSpeed : JSNum → ℚ
  | .num q => jsMax 0 (jsMin q MAX_SPEED_KMH)
  | _ => 0

/-- `clampTime` from src/types.ts: non-finite ↦ 0, else
`Math.max(0, Math.min(Math.floor(value), MAX_TIME_SECONDS))`.
The result is a nonnegative integer, so we land in `ℕ`. -/
def clampTime : JSNum → ℕ
  | .num q => (jsMaxI 0 (jsMinI ⌊q⌋ MAX_TIME_SECONDS)).toNat
  | _ => 0

/-- `clampDistance` from src/types.ts. -/
def clampDistance : JSNum → ℚ
  | .num q => jsMax 0 (jsMin q MAX_DISTANCE_KM)
  | _ => 0

/-- `clampSteps` from src/types.ts: non-finite ↦ 0, else
`Math.max(0, Math.min(Math.floor(value), MAX_STEPS))`. -/
def clampSteps : JSNum → ℕ
  | .num q => (jsMaxI 0 (jsMinI ⌊q⌋ MAX_STEPS)).toNat
  | _ => 0

/-- `clampDeviceState` from src/types.ts: non-finite ↦ 0, else
`Math.min(Math.max(0, Math.floor(n)), 3)`. -/
def clampDeviceState : JSNum → ℕ
  | .num q => (jsMinI (jsMaxI 0 ⌊q⌋) 3).toNat
  | _ => 0

/-- `clampDeviceMode` from src/types.ts: non-finite ↦ 0, else
`Math.min(Math.max(0, Math.floor(n)), 2)`. -/
def clampDeviceMode : JSNum → ℕ
  | .num q => (jsMinI (jsMaxI 0 ⌊q⌋) 2).toNat
  | _ => 0

/-- `WalkingPadState` from src/types.ts.  `state`, `mode`, `time` and
`steps` are integers after clamping, so they are embedded as `ℕ`;
`speed` and `distance` stay rational. -/
structure WalkingPadState where
  state : ℕ
  speed : ℚ
  time : ℕ
  distance : ℚ
  steps : ℕ
  mode : ℕ
  isRunning : Bool
deriving DecidableEq, Repr

/-- `createDefaultState` from src/types.ts: all zeros / false. -/
def createDefaultState : WalkingPadState :=
  { state := 0, speed := 0, time := 0, distance := 0, steps := 0,
    mode := 0, isRunning := false }

/-! ## buffer-utils (readByte / readUint16LE / readUint24LE / readUint24BE)

The source guards `offset < 0 || ...`; offsets in this embedding are `ℕ`,
so only the upper-bound guard is live. -/

/-- A byte buffer: the contents of a `Uint8Array`. -/
abbrev ByteSeq := List (Fin 256)

/-- `readByte`: 0 when out of bounds, else the byte. -/
def readByte (data : ByteSeq) (offset : ℕ) : ℕ :=
  if data.length ≤ offset then 0 else (data.getD offset 0).val

/-- `readUint16LE`: 0 when fewer than 2 bytes remain. -/
def readUint16LE (data : ByteSeq) (offset : ℕ) : ℕ :=
  if data.length < offset + 2 then 0
  else readByte data offset ||| (readByte data (offset + 1) <<< 8)

/-- `readUint24LE`: 0 when fewer than 3 bytes remain. -/
def readUint24LE (data : ByteSeq) (offset : ℕ) : ℕ :=
  if data.length < offset + 3 then 0
  else
    readByte data offset ||| (readByte data (offset + 1) <<< 8) |||
      (readByte data (offset + 2) <<< 16)

/-- `readUint24BE`: 0 when fewer than 3 bytes remain. -/
def readUint24BE (data : ByteSeq) (offset : ℕ) : ℕ :=
  if data.length < offset + 3 then 0
  else
    (readByte data offset <<< 16) ||| (readByte data (offset + 1) <<< 8) |||
      readByte data (offset + 2)

/-! ## src/constants.ts — protocol constants -/

def STANDARD_PACKET_HEADER_1 : ℕ := 0xf7
def STANDARD_PACKET_HEADER_2 : ℕ := 0xa2
def STANDARD_PACKET_SUFFIX : ℕ := 0xfd
def STANDARD_MIN_STATUS_LENGTH : ℕ := 16
def STANDARD_OFFSET_STATE : ℕ := 2
def STANDARD_OFFSET_SPEED : ℕ := 3
def STANDARD_OFFSET_MODE : ℕ := 4
def STANDARD_OFFSET_TIME : ℕ := 5
def STANDARD_OFFSET_DISTANCE : ℕ := 8
def STANDARD_OFFSET_STEPS : ℕ := 11
def STANDARD_CMD_ASK_STATS_BODY : ℕ := 0x00
def STANDARD_CMD_START_BODY : List ℕ := [0x04, 0x01]
def STANDARD_CMD_STOP_BODY : List ℕ := [0x04, 0x00]
def STANDARD_CMD_SET_SPEED_OP : ℕ := 0x03
def STANDARD_DEFAULT_MIN_SPEED_KMH : ℚ := 0.5
def STANDARD_DEFAULT_MAX_SPEED_KMH : ℚ := 6.0
/-- Standard protocol encodes speed as value * 10. -/
def STANDARD_SPEED_SCALE : ℚ := 10
/-- Standard protocol distance unit: 0.01 km. -/
def STANDARD_DISTANCE_SCALE : ℚ := 100

def FTMS_OP_REQUEST_CONTROL : ℕ := 0x00
def FTMS_OP_SET_TARGET_SPEED : ℕ := 0x02
def FTMS_OP_START_RESUME : ℕ := 0x07
def FTMS_OP_STOP_PAUSE : ℕ := 0x08
def FTMS_STOP_PARAM_STOP : ℕ := 0x01
def FTMS_SPEED_SCALE : ℚ := 100
def FTMS_METERS_PER_KM : ℚ := 1000
def FTMS_DEFAULT_MIN_SPEED_KMH : ℚ := 0.5
def FTMS_DEFAULT_MAX_SPEED_KMH : ℚ := 6.0
/-- Minimum FTMS packet: 2 bytes of flags. -/
def FTMS_MIN_PACKET_LENGTH : ℕ := 2
/-- Minimum FTMS packet carrying a speed: flags + 2 bytes. -/
def FTMS_MIN_SPEED_LENGTH : ℕ := 4
def FTMS_FLAG_AVERAGE_SPEED : ℕ := 1 <<< 1
def FTMS_FLAG_TOTAL_DISTANCE : ℕ := 1 <<< 2
def FTMS_FLAG_INCLINATION : ℕ := 1 <<< 3
def FTMS_FLAG_ELEVATION_GAIN : ℕ := 1 <<< 4
def FTMS_FLAG_INSTANTANEOUS_PACE : ℕ := 1 <<< 5
def FTMS_FLAG_AVERAGE_PACE : ℕ := 1 <<< 6
def FTMS_FLAG_EXPENDED_ENERGY : ℕ := 1 <<< 7
def FTMS_FLAG_HEART_RATE : ℕ := 1 <<< 8
def FTMS_FLAG_METABOLIC_EQUIVALENT : ℕ := 1 <<< 9
def FTMS_FLAG_ELAPSED_TIME : ℕ := 1 <<< 10

/-! ## src/errors.ts — SpeedOutOfRangeError -/

deriving instance DecidableEq for Except

/-- `SpeedOutOfRangeError` from src/errors.ts: carries `value`, `min`, `max`.
`value` is the raw (possibly non-finite) argument. -/
structure SpeedOutOfRangeError where
  value : JSNum
  min : ℚ
  max : ℚ
deriving DecidableEq, Repr

/-! ## src/protocol-standard.ts — the proprietary framed codec

Command packets are built over `ℕ` lists; every stored entry is reduced
mod 256, mirroring the `Uint8Array` element coercion. -/

/-- `StandardProtocol.createPacket`: `[0xF7, 0xA2, <body>, checksum, 0xFD]`
with checksum = sum of bytes 1 .. n-3 of the packet, mod 256. -/
def createPacket (body : List ℕ) : List ℕ :=
  let msg := [STANDARD_PACKET_HEADER_1, STANDARD_PACKET_HEADER_2] ++
    body.map (· % 256)
  msg ++ [(msg.drop 1).sum % 256, STANDARD_PACKET_SUFFIX]

/-- `StandardProtocol.cmdStart`. -/
def StandardProtocol.cmdStart : List ℕ := createPacket STANDARD_CMD_START_BODY

/-- `StandardProtocol.cmdStop`. -/
def StandardProtocol.cmdStop : List ℕ := createPacket STANDARD_CMD_STOP_BODY

/-- `StandardProtocol.cmdAskStats`. -/
def StandardProtocol.cmdAskStats : List ℕ :=
  createPacket [STANDARD_CMD_ASK_STATS_BODY]

/-- `StandardProtocol.cmdRequestControl`: empty payload. -/
def StandardProtocol.cmdRequestControl : List ℕ := []

/-- `StandardProtocol.cmdSetSpeed`: validates
`Number.isFinite(kmh) && 0.5 ≤ kmh ≤ 6.0`, throwing `SpeedOutOfRangeError`
otherwise; on success the body is `[0x03, Math.round(kmh * 10)]`.
(`Int.toNat` agrees with the `Uint8Array` coercion on the guarded range,
where the rounded value is in [5, 60].) -/
def StandardProtocol.cmdSetSpeed (kmh : JSNum) :
    Except SpeedOutOfRangeError (List ℕ) :=
  match kmh with
  | .num q =>
      if q < STANDARD_DEFAULT_MIN_SPEED_KMH ∨ STANDARD_DEFAULT_MAX_SPEED_KMH < q then
        .error ⟨.num q, STANDARD_DEFAULT_MIN_SPEED_KMH, STANDARD_DEFAULT_MAX_SPEED_KMH⟩
      else
        .ok (createPacket
          [STANDARD_CMD_SET_SPEED_OP, (jsRound (q * STANDARD_SPEED_SCALE)).toNat])
  | v => .error ⟨v, STANDARD_DEFAULT_MIN_SPEED_KMH, STANDARD_DEFAULT_MAX_SPEED_KMH⟩

/-- `StandardProtocol.parseStatus` from src/protocol-standard.ts:
length guard at 16, then fixed-offset reads, each clamped. -/
def StandardProtocol.parseStatus (bytes : ByteSeq) : WalkingPadState :=
  if bytes.length < STANDARD_MIN_STATUS_LENGTH then createDefaultState
  else
    let rawState := readByte bytes STANDARD_OFFSET_STATE
    let rawSpeed := readByte bytes STANDARD_OFFSET_SPEED
    let rawMode := readByte bytes STANDARD_OFFSET_MODE
    let st := clampDeviceState (.num rawState)
    let speed := clampSpeed (.num ((rawSpeed : ℚ) / STANDARD_SPEED_SCALE))
    { state := st
      speed := speed
      mode := clampDeviceMode (.num rawMode)
      time := clampTime (.num (readUint24BE bytes STANDARD_OFFSET_TIME))
      distance := clampDistance
        (.num ((readUint24BE bytes STANDARD_OFFSET_DISTANCE : ℚ) / STANDARD_DISTANCE_SCALE))
      steps := clampSteps (.num (readUint24BE bytes STANDARD_OFFSET_STEPS))
      isRunning := decide (0 < speed) || decide (st = 1) }


/-! ## src/protocol-ftms.ts — the FTMS codec

`parseStatus` is a sequence of flag-gated optional fields; any flagged
field that would overrun the buffer makes the function return the state
accumulated so far.  The ten `if (flags & FLAG)` blocks of the source are
represented as a descriptor list processed in order; each descriptor
carries the flag mask, the field width in bytes, and what the block does
with the bytes (most are skipped). -/

/-- What one flag-gated FTMS block does with its bytes. -/
inductive FtmsFieldAction where
  | skip
  | totalDistance
  | elapsedTime
deriving DecidableEq, Repr

/-- One flag-gated FTMS optional field: flag mask, width, action. -/
structure FtmsField where
  flag : ℕ
  width : ℕ
  action : FtmsFieldAction
deriving DecidableEq, Repr

/-- The ten optional fields of `FTMSProtocol.parseStatus`, in source
order: average speed (2, skip), total distance (3, parsed), inclination
(4, skip), elevation gain (2, skip), instantaneous pace (1, skip),
average pace (1, skip), expended energy (5, skip), heart rate (1, skip),
metabolic equivalent (1, skip), elapsed time (2, parsed). -/
def ftmsOptionalFields : List FtmsField :=
  [⟨FTMS_FLAG_AVERAGE_SPEED, 2, .skip⟩,
   ⟨FTMS_FLAG_TOTAL_DISTANCE, 3, .totalDistance⟩,
   ⟨FTMS_FLAG_INCLINATION, 4, .skip⟩,
   ⟨FTMS_FLAG_ELEVATION_GAIN, 2, .skip⟩,
   ⟨FTMS_FLAG_INSTANTANEOUS_PACE, 1, .skip⟩,
   ⟨FTMS_FLAG_AVERAGE_PACE, 1, .skip⟩,
   ⟨FTMS_FLAG_EXPENDED_ENERGY, 5, .skip⟩,
   ⟨FTMS_FLAG_HEART_RATE, 1, .skip⟩,
   ⟨FTMS_FLAG_METABOLIC_EQUIVALENT, 1, .skip⟩,
   ⟨FTMS_FLAG_ELAPSED_TIME, 2, .elapsedTime⟩]

/-- The body of a parsed FTMS block: `.totalDistance` is
`state.distance = clampDistance(readUint24LE(bytes, offset) / 1000)`,
`.elapsedTime` is `state.time = clampTime(readUint16LE(bytes, offset))`. -/
def applyFtmsField (bytes : ByteSeq) (offset : ℕ) (st : WalkingPadState) :
    FtmsFieldAction → WalkingPadState
  | .skip => st
  | .totalDistance =>
      { st with distance :=
          clampDistance (.num ((readUint24LE bytes offset : ℚ) / FTMS_METERS_PER_KM)) }
  | .elapsedTime =>
      { st with time := clampTime (.num (readUint16LE bytes offset)) }

/-- The flag-gated field loop of `FTMSProtocol.parseStatus`.  Returns
`(completed, state, offset)`; `completed = false` is the early
`return state` taken when a flagged field would overrun the buffer. -/
def processFtmsFields (bytes : ByteSeq) (flags : ℕ) :
    List FtmsField → WalkingPadState → ℕ → Bool × WalkingPadState × ℕ
  | [], st, offset => (true, st, offset)
  | f :: rest, st, offset =>
      if flags &&& f.flag ≠ 0 then
        if bytes.length < offset + f.width then (false, st, offset)
        else
          processFtmsFields bytes flags rest
            (applyFtmsField bytes offset st f.action) (offset + f.width)
      else processFtmsFields bytes flags rest st offset

/-- The part of `FTMSProtocol.parseStatus` before the flag loop: default
state, then the always-present instantaneous speed (2 bytes, 0.01 km/h)
when the buffer holds at least 4 bytes.  Returns (state, offset). -/
def ftmsInit (bytes : ByteSeq) : WalkingPadState × ℕ :=
  if FTMS_MIN_SPEED_LENGTH ≤ bytes.length then
    ({ createDefaultState with
        speed := clampSpeed
          (.num ((readUint16LE bytes FTMS_MIN_PACKET_LENGTH : ℚ) / FTMS_SPEED_SCALE)) },
      FTMS_MIN_PACKET_LENGTH + 2)
  else (createDefaultState, FTMS_MIN_PACKET_LENGTH)

/-- The flag loop applied to the initial state (source lines 53-107). -/
def ftmsProcess (bytes : ByteSeq) : Bool × WalkingPadState × ℕ :=
  processFtmsFields bytes (readUint16LE bytes 0) ftmsOptionalFields
    (ftmsInit bytes).1 (ftmsInit bytes).2

/-- The tail of `FTMSProtocol.parseStatus`: on early return the
accumulated state is returned as is; otherwise the derived fields are
computed from the speed and a trailing 2-byte vendor step count is read
when present. -/
def ftmsFinish (bytes : ByteSeq) : Bool × WalkingPadState × ℕ → WalkingPadState
  | (false, st, _) => st
  | (true, st, offset) =>
      let derived :=
        { st with
            state := clampDeviceState (.num (if 0 < st.speed then 1 else 0))
            isRunning := decide (0 < st.speed)
            mode := clampDeviceMode (.num (if 0 < st.speed then 1 else 0)) }
      if offset + 2 ≤ bytes.length then
        { derived with steps := clampSteps (.num (readUint16LE bytes offset)) }
      else derived

/-- `FTMSProtocol.parseStatus` from src/protocol-ftms.ts. -/
def FTMSProtocol.parseStatus (bytes : ByteSeq) : WalkingPadState :=
  if bytes.length < FTMS_MIN_PACKET_LENGTH then createDefaultState
  else ftmsFinish bytes (ftmsProcess bytes)

/-- `FTMSProtocol.cmdStart`: `[0x07]`. -/
def FTMSProtocol.cmdStart : List ℕ := [FTMS_OP_START_RESUME]

/-- `FTMSProtocol.cmdStop`: `[0x08, 0x01]`. -/
def FTMSProtocol.cmdStop : List ℕ := [FTMS_OP_STOP_PAUSE, FTMS_STOP_PARAM_STOP]

/-- `FTMSProtocol.cmdAskStats`: empty (FTMS is notification-driven). -/
def FTMSProtocol.cmdAskStats : List ℕ := []

/-- `FTMSProtocol.cmdRequestControl`: `[0x00]`. -/
def FTMSProtocol.cmdRequestControl : List ℕ := [FTMS_OP_REQUEST_CONTROL]

/-- `FTMSProtocol.cmdSetSpeed`: same validation as the standard codec;
on success `value = Math.round(kmh * 100)` is written as opcode `0x02`
followed by `value` as a 16-bit little-endian quantity (the `setUint16`
coercion wraps mod 2^16; on the guarded range the value is in [50, 600]). -/
def FTMSProtocol.cmdSetSpeed (kmh : JSNum) :
    Except SpeedOutOfRangeError (List ℕ) :=
  match kmh with
  | .num q =>
      if q < FTMS_DEFAULT_MIN_SPEED_KMH ∨ FTMS_DEFAULT_MAX_SPEED_KMH < q then
        .error ⟨.num q, FTMS_DEFAULT_MIN_SPEED_KMH, FTMS_DEFAULT_MAX_SPEED_KMH⟩
      else
        let value := (jsRound (q * FTMS_SPEED_SCALE)).toNat % 65536
        .ok [FTMS_OP_SET_TARGET_SPEED, value % 256, value / 256]
  | v => .error ⟨v, FTMS_DEFAULT_MIN_SPEED_KMH, FTMS_DEFAULT_MAX_SPEED_KMH⟩

/-! ## src/transport.ts and src/protocol-factory.ts — UUID matching and
protocol detection

JS strings are embedded as `List Char`; `toLowerCase` is a character-wise
`Char.toLower` (adequate for the ASCII alphabet of UUID strings). -/

/-- JS `String.prototype.toLowerCase`, character-wise. -/
def jsToLower (s : List Char) : List Char := s.map Char.toLower

/-- JS `String.prototype.charAt`: the character at an index, or a
placeholder for out-of-bounds access (JS returns the empty string there,
which compares unequal to any single character). -/
def jsCharAt (s : List Char) (i : ℕ) : Char := s.getD i ⟨0, by decide⟩

/-- JS `String.prototype.substring(a, b)`: characters at indices
`a ≤ i < b`. -/
def jsSubstring (s : List Char) (a b : ℕ) : List Char := (s.take b).drop a

/-- `GATT_FTMS_SERVICE` from src/constants.ts. -/
def GATT_FTMS_SERVICE : List Char := ['1', '8', '2', '6']

/-- `uuidMatches` from src/transport.ts: direct (case-folded) equality,
or — for a 36-character long-form UUID with a dash at index 8 — equality
of the 4 hex digits at positions 4..8 with the short id. -/
def uuidMatches (uuid shortId : List Char) : Bool :=
  let normalized := jsToLower uuid
  let shortNormalized := jsToLower shortId
  if normalized = shortNormalized then true
  else if normalized.length = 36 ∧ jsCharAt normalized 8 = '-' then
    jsSubstring normalized 4 8 = shortNormalized
  else false

/-- `isFtmsServiceUuid` from src/protocol-factory.ts: the same match,
specialised to the FTMS short id `1826`. -/
def isFtmsServiceUuid (uuid : List Char) : Bool :=
  let normalized := jsToLower uuid
  let shortId := jsToLower GATT_FTMS_SERVICE
  if normalized = shortId then true
  else if normalized.length = 36 ∧ jsCharAt normalized 8 = '-' then
    jsSubstring normalized 4 8 = shortId
  else false

/-- `ProtocolName` from src/types.ts. -/
inductive ProtocolName where
  | standard
  | ftms
deriving DecidableEq, Repr

/-- `detectProtocol` from src/protocol-factory.ts: first match wins,
otherwise standard. -/
def detectProtocol (serviceUuids : List (List Char)) : ProtocolName :=
  if serviceUuids.any isFtmsServiceUuid then .ftms else .standard

/-! ## src/state-machine.ts — the connection state machine

Observer callbacks are kept abstract (`κ`); a transition reports, in
order, the invocations it performs as `(callback, from, to)` triples.
The source wraps each callback call in try/catch, so the machine outcome
never depends on what the callbacks do — in this model the outcome
fields are computed without consulting `callbacks` at all. -/

/-- `ConnectionState` from src/types.ts. -/
inductive ConnectionState where
  | disconnected
  | connecting
  | connected
  | error
deriving DecidableEq, Repr

/-- `VALID_TRANSITIONS` from src/state-machine.ts. -/
def VALID_TRANSITIONS : ConnectionState → List ConnectionState
  | .disconnected => [.connecting]
  | .connecting => [.connected, .error, .disconnected]
  | .connected => [.disconnected]
  | .error => [.disconnected, .connecting]

/-- `canTransition` from src/state-machine.ts. -/
def canTransition (state tgt : ConnectionState) : Bool :=
  (VALID_TRANSITIONS state).contains tgt

/-- Result of one `transition` call: whether it threw the
`Invalid state transition` error, the machine state after the call, and
the observer invocations performed (callback, from, to). -/
structure TransitionResult (κ : Type) where
  threw : Bool
  state : ConnectionState
  fired : List (κ × ConnectionState × ConnectionState)
deriving DecidableEq, Repr

/-- `transition` from src/state-machine.ts: an invalid target throws and
changes nothing; a valid one installs the new state and then invokes
every registered callback once with `(from, to)`. -/
def transition {κ : Type} (state : ConnectionState) (callbacks : List κ)
    (tgt : ConnectionState) : TransitionResult κ :=
  if canTransition state tgt then
    { threw := false, state := tgt,
      fired := callbacks.map fun cb => (cb, state, tgt) }
  else { threw := true, state := state, fired := [] }

/-! ## poll-manager.ts — error budget of the polling loop

One timer tick of `createPollManager.start` (the standard-protocol
path, where `cmdAskStats` is non-empty and the session and codec remain
reachable) is modelled by its effect on the consecutive-error counter
and the stopped flag, plus the number of `onError` emissions (0 or 1).
`stopped` covers both the cleared timer and the session-token fence, so
a stopped loop ignores every later tick.  Each write is assumed to
settle before the next tick fires (the sequential schedule). -/

/-- Poll loop state: the `consecutiveErrors` counter of the tick closure
and whether the loop has been stopped. -/
structure PollState where
  consecutiveErrors : ℕ
  stopped : Bool
deriving DecidableEq, Repr

/-- One poll tick given the write outcome: success resets the counter;
failure increments it, emits one error, and stops the loop when the
counter reaches `maxConsecutiveErrors`.  A stopped loop does nothing. -/
def pollTick (maxConsecutiveErrors : ℕ) (s : PollState) (success : Bool) :
    PollState × ℕ :=
  if s.stopped then (s, 0)
  else if success then ({ consecutiveErrors := 0, stopped := false }, 0)
  else
    let c := s.consecutiveErrors + 1
    ({ consecutiveErrors := c,
       stopped := decide (maxConsecutiveErrors ≤ c) }, 1)

/-- Run the poll loop over a script of write outcomes, totalling the
error emissions. -/
def pollRun (maxConsecutiveErrors : ℕ) :
    PollState → List Bool → PollState × ℕ
  | s, [] => (s, 0)
  | s, outcome :: rest =>
      let t := pollTick maxConsecutiveErrors s outcome
      let r := pollRun maxConsecutiveErrors t.1 rest
      (r.1, t.2 + r.2)

/-- Total error emissions over a script, from a fresh start with the
default error budget (`maxConsecutiveErrors = 3`). -/
def pollErrors (script : List Bool) : ℕ :=
  (pollRun 3 { consecutiveErrors := 0, stopped := false } script).2

/-- The end-to-end standard status fixture from the specification, §8:
`f7 a2 01 23 00 00 00 78 00 00 32 00 00 64 00 fd`. -/
def sampleStatusPacket : ByteSeq :=
  [0xf7, 0xa2, 0x01, 0x23, 0x00, 0x00, 0x00, 0x78, 0x00, 0x00, 0x32,
   0x00, 0x00, 0x64, 0x00, 0xfd]


/-- FTMS fixture from §8 scenario 5: flags 0x0404 (total distance and
elapsed time), speed 1.00 km/h, distance 1000 m, time 60 s. -/
def sampleFtmsPacket : ByteSeq :=
  [0x04, 0x04, 0x64, 0x00, 0xe8, 0x03, 0x00, 0x3c, 0x00]

/-! ## Derived notions used by the verification -/

/-- All numeric fields of a parsed state are inside their declared clamp
ranges (`state` ∈ {0..3}, `mode` ∈ {0..2}, `time` ≤ 86400 s,
`steps` ≤ 200000, 0 ≤ `speed` ≤ 25 km/h, 0 ≤ `distance` ≤ 100 km;
`state`, `mode`, `time` and `steps` are integers by their `ℕ` type). -/
def stateInRange (s : WalkingPadState) : Prop :=
  0 ≤ s.speed ∧ s.speed ≤ 25 ∧ s.time ≤ 86400 ∧
  0 ≤ s.distance ∧ s.distance ≤ 100 ∧ s.steps ≤ 200000 ∧
  s.state ≤ 3 ∧ s.mode ≤ 2

instance (s : WalkingPadState) : Decidable (stateInRange s) := by
  unfold stateInRange
  infer_instance

/-- `FTMSProtocol.parseStatus` took one of the ten early returns: some
flagged optional field would have overrun the buffer. -/
def ftmsHaltedEarly (bytes : ByteSeq) : Bool :=
  decide (FTMS_MIN_PACKET_LENGTH ≤ bytes.length) && !(ftmsProcess bytes).1

/-! ## Sanity evaluations -/

example : readByte ([0x12, 0x34] : ByteSeq) 1 = 0x34 := by decide
example : readByte ([0x12, 0x34] : ByteSeq) 2 = 0 := by decide
example : readUint16LE ([0x34, 0x12] : ByteSeq) 0 = 0x1234 := by decide
example : readUint24BE ([0x00, 0x00, 0x78] : ByteSeq) 0 = 120 := by decide

example : clampTime (.num (86401 : ℚ)) = 86400 := by
  norm_num [clampTime, jsMaxI, jsMinI, MAX_TIME_SECONDS]
  omega
example : clampSpeed (.num (30 : ℚ)) = 25 := by
  norm_num [clampSpeed, jsMax, jsMin, MAX_SPEED_KMH]
example : clampSpeed .nan = 0 := by rfl
example :
    StandardProtocol.parseStatus sampleStatusPacket =
    { state := 1, speed := 3.5, time := 120, distance := 0.5, steps := 100,
      mode := 0, isRunning := true } := by
  have h2 : readByte sampleStatusPacket 2 = 1 := by decide
  have h3 : readByte sampleStatusPacket 3 = 35 := by decide
  have h4 : readByte sampleStatusPacket 4 = 0 := by decide
  have ht : readUint24BE sampleStatusPacket 5 = 120 := by decide
  have hd : readUint24BE sampleStatusPacket 8 = 50 := by decide
  have hs : readUint24BE sampleStatusPacket 11 = 100 := by decide
  have hl : sampleStatusPacket.length = 16 := by decide
  norm_num [StandardProtocol.parseStatus, STANDARD_MIN_STATUS_LENGTH,
    STANDARD_OFFSET_STATE, STANDARD_OFFSET_SPEED, STANDARD_OFFSET_MODE,
    STANDARD_OFFSET_TIME, STANDARD_OFFSET_DISTANCE, STANDARD_OFFSET_STEPS,
    STANDARD_SPEED_SCALE, STANDARD_DISTANCE_SCALE, hl, h2, h3, h4, ht, hd, hs,
    clampDeviceState, clampDeviceMode, clampSpeed, clampTime, clampSteps,
    clampDistance, jsMin, jsMax, jsMinI, jsMaxI, MAX_SPEED_KMH,
    MAX_TIME_SECONDS, MAX_DISTANCE_KM, MAX_STEPS, WalkingPadState.mk.injEq]
  omega
example :
    StandardProtocol.cmdSetSpeed (.num 3.5) =
      .ok [0xf7, 0xa2, 0x03, 0x23, 0xc8, 0xfd] := by
  have hr : jsRound (35 : ℚ) = 35 := by
    norm_num [jsRound]
  norm_num [StandardProtocol.cmdSetSpeed, STANDARD_DEFAULT_MIN_SPEED_KMH,
    STANDARD_DEFAULT_MAX_SPEED_KMH, hr, STANDARD_CMD_SET_SPEED_OP,
    STANDARD_SPEED_SCALE, createPacket, STANDARD_PACKET_HEADER_1,
    STANDARD_PACKET_HEADER_2, STANDARD_PACKET_SUFFIX]
  omega
example : StandardProtocol.cmdStart = [0xf7, 0xa2, 0x04, 0x01, 0xa7, 0xfd] := by
  decide

theorem jsMin_eq_min (a b : ℚ) : jsMin a b = min a b := by
  unfold jsMin
  split
  · exact (min_eq_left (by assumption)).symm
  · exact (min_eq_right (le_of_not_le (by assumption))).symm

theorem jsMax_eq_max (a b : ℚ) : jsMax a b = max a b := by
  unfold jsMax
  split
  · exact (max_eq_right (by assumption)).symm
  · exact (max_eq_left (le_of_not_le (by assumption))).symm

theorem jsMinI_eq_min (a b : ℤ) : jsMinI a b = min a b := by
  unfold jsMinI
  split <;> omega

theorem jsMaxI_eq_max (a b : ℤ) : jsMaxI a b = max a b := by
  unfold jsMaxI
  split <;> omega

set_option maxHeartbeats 1000000 in
example :
    FTMSProtocol.parseStatus sampleFtmsPacket =
    { state := 1, speed := 1, time := 60, distance := 1, steps := 0,
      mode := 1, isRunning := true } := by
  have hl : sampleFtmsPacket.length = 9 := by decide
  have hf : readUint16LE sampleFtmsPacket 0 = 0x0404 := by decide
  have hsp : readUint16LE sampleFtmsPacket 2 = 100 := by decide
  have hd : readUint24LE sampleFtmsPacket 4 = 1000 := by decide
  have ht : readUint16LE sampleFtmsPacket 7 = 60 := by decide
  simp only [FTMSProtocol.parseStatus, ftmsProcess, ftmsInit, ftmsFinish,
    processFtmsFields, ftmsOptionalFields, applyFtmsField,
    FTMS_MIN_PACKET_LENGTH, FTMS_MIN_SPEED_LENGTH, FTMS_SPEED_SCALE,
    FTMS_METERS_PER_KM, FTMS_FLAG_AVERAGE_SPEED, FTMS_FLAG_TOTAL_DISTANCE,
    FTMS_FLAG_INCLINATION, FTMS_FLAG_ELEVATION_GAIN,
    FTMS_FLAG_INSTANTANEOUS_PACE, FTMS_FLAG_AVERAGE_PACE,
    FTMS_FLAG_EXPENDED_ENERGY, FTMS_FLAG_HEART_RATE,
    FTMS_FLAG_METABOLIC_EQUIVALENT, FTMS_FLAG_ELAPSED_TIME,
    hl, hf, hsp, hd, ht]
  simp +decide
  norm_num [hd, createDefaultState, clampDeviceState, clampDeviceMode,
    clampSpeed, clampTime, clampSteps, clampDistance, jsMin, jsMax, jsMinI,
    jsMaxI, MAX_SPEED_KMH, MAX_TIME_SECONDS, MAX_DISTANCE_KM, MAX_STEPS,
    WalkingPadState.mk.injEq]

set_option maxHeartbeats 1000000 in
example :
    FTMSProtocol.parseStatus ([0x00, 0x00, 0x00, 0x00] : ByteSeq) =
      createDefaultState := by
  have hf : readUint16LE ([0x00, 0x00, 0x00, 0x00] : ByteSeq) 0 = 0 := by decide
  have hsp : readUint16LE ([0x00, 0x00, 0x00, 0x00] : ByteSeq) 2 = 0 := by decide
  simp only [FTMSProtocol.parseStatus, ftmsProcess, ftmsInit, ftmsFinish,
    processFtmsFields, ftmsOptionalFields, applyFtmsField,
    FTMS_MIN_PACKET_LENGTH, FTMS_MIN_SPEED_LENGTH, FTMS_SPEED_SCALE,
    FTMS_FLAG_AVERAGE_SPEED, FTMS_FLAG_TOTAL_DISTANCE,
    FTMS_FLAG_INCLINATION, FTMS_FLAG_ELEVATION_GAIN,
    FTMS_FLAG_INSTANTANEOUS_PACE, FTMS_FLAG_AVERAGE_PACE,
    FTMS_FLAG_EXPENDED_ENERGY, FTMS_FLAG_HEART_RATE,
    FTMS_FLAG_METABOLIC_EQUIVALENT, FTMS_FLAG_ELAPSED_TIME, hf, hsp]
  simp +decide

example :
    FTMSProtocol.cmdSetSpeed (.num 3.5) = .ok [0x02, 0x5e, 0x01] := by
  have hr : jsRound (350 : ℚ) = 350 := by norm_num [jsRound]
  norm_num [FTMSProtocol.cmdSetSpeed, FTMS_DEFAULT_MIN_SPEED_KMH,
    FTMS_DEFAULT_MAX_SPEED_KMH, FTMS_SPEED_SCALE, FTMS_OP_SET_TARGET_SPEED, hr]
  omega

example :
    FTMSProtocol.cmdSetSpeed (.num 6) = .ok [0x02, 0x58, 0x02] := by
  have hr : jsRound (600 : ℚ) = 600 := by norm_num [jsRound]
  norm_num [FTMSProtocol.cmdSetSpeed, FTMS_DEFAULT_MIN_SPEED_KMH,
    FTMS_DEFAULT_MAX_SPEED_KMH, FTMS_SPEED_SCALE, FTMS_OP_SET_TARGET_SPEED, hr]
  omega

set_option maxHeartbeats 1000000 in
example :
    FTMSProtocol.parseStatus ([0x02, 0x00, 0x64, 0x00] : ByteSeq) =
    { createDefaultState with speed := 1 } := by
  have hf : readUint16LE ([0x02, 0x00, 0x64, 0x00] : ByteSeq) 0 = 2 := by decide
  have hsp : readUint16LE ([0x02, 0x00, 0x64, 0x00] : ByteSeq) 2 = 100 := by decide
  simp only [FTMSProtocol.parseStatus, ftmsProcess, ftmsInit, ftmsFinish,
    processFtmsFields, ftmsOptionalFields, applyFtmsField,
    FTMS_MIN_PACKET_LENGTH, FTMS_MIN_SPEED_LENGTH, FTMS_SPEED_SCALE,
    FTMS_FLAG_AVERAGE_SPEED, FTMS_FLAG_TOTAL_DISTANCE,
    FTMS_FLAG_INCLINATION, FTMS_FLAG_ELEVATION_GAIN,
    FTMS_FLAG_INSTANTANEOUS_PACE, FTMS_FLAG_AVERAGE_PACE,
    FTMS_FLAG_EXPENDED_ENERGY, FTMS_FLAG_HEART_RATE,
    FTMS_FLAG_METABOLIC_EQUIVALENT, FTMS_FLAG_ELAPSED_TIME, hf, hsp]
  simp +decide

example : uuidMatches "00001826-0000-1000-8000-00805f9b34fb".toList "1826".toList = true := by decide
example : uuidMatches "1826".toList "00001826-0000-1000-8000-00805f9b34fb".toList = false := by decide
example : uuidMatches "AB1826CD".toList "ab1826cd".toList = true := by decide
example : detectProtocol ["00001826-0000-1000-8000-00805f9b34fb".toList] = .ftms := by decide
example : detectProtocol ["0000fe00-0000-1000-8000-00805f9b34fb".toList] = .standard := by decide
example : detectProtocol ["ab1826cd".toList] = .standard := by decide
example : pollErrors (List.replicate 5 false) = 3 := by decide
example : pollErrors [false, true, false, false, false, false] = 4 := by decide
example : (transition ConnectionState.connected ([0] : List ℕ) .connecting).threw = true := by decide

/-! ## Clamp range lemmas -/

theorem clampSpeed_mem (v : JSNum) : 0 ≤ clampSpeed v ∧ clampSpeed v ≤ 25 := by
  cases v with
  | num q =>
      simp only [clampSpeed, MAX_SPEED_KMH]
      rw [jsMax_eq_max, jsMin_eq_min]
      exact ⟨le_max_left 0 _, max_le (by norm_num) (min_le_right q 25)⟩
  | nan => exact ⟨le_refl 0, by norm_num [clampSpeed]⟩
  | posInf => exact ⟨le_refl 0, by norm_num [clampSpeed]⟩
  | negInf => exact ⟨le_refl 0, by norm_num [clampSpeed]⟩

theorem clampDistance_mem (v : JSNum) :
    0 ≤ clampDistance v ∧ clampDistance v ≤ 100 := by
  cases v with
  | num q =>
      simp only [clampDistance, MAX_DISTANCE_KM]
      rw [jsMax_eq_max, jsMin_eq_min]
      exact ⟨le_max_left 0 _, max_le (by norm_num) (min_le_right q 100)⟩
  | nan => exact ⟨le_refl 0, by norm_num [clampDistance]⟩
  | posInf => exact ⟨le_refl 0, by norm_num [clampDistance]⟩
  | negInf => exact ⟨le_refl 0, by norm_num [clampDistance]⟩

theorem clampTime_le (v : JSNum) : clampTime v ≤ 86400 := by
  cases v with
  | num q =>
      simp only [clampTime, MAX_TIME_SECONDS]
      rw [jsMaxI_eq_max, jsMinI_eq_min]
      omega
  | nan => exact Nat.zero_le _
  | posInf => exact Nat.zero_le _
  | negInf => exact Nat.zero_le _

theorem clampSteps_le (v : JSNum) : clampSteps v ≤ 200000 := by
  cases v with
  | num q =>
      simp only [clampSteps, MAX_STEPS]
      rw [jsMaxI_eq_max, jsMinI_eq_min]
      omega
  | nan => exact Nat.zero_le _
  | posInf => exact Nat.zero_le _
  | negInf => exact Nat.zero_le _

theorem clampDeviceState_le (v : JSNum) : clampDeviceState v ≤ 3 := by
  cases v with
  | num q =>
      simp only [clampDeviceState]
      rw [jsMaxI_eq_max, jsMinI_eq_min]
      omega
  | nan => exact Nat.zero_le _
  | posInf => exact Nat.zero_le _
  | negInf => exact Nat.zero_le _

theorem clampDeviceMode_le (v : JSNum) : clampDeviceMode v ≤ 2 := by
  cases v with
  | num q =>
      simp only [clampDeviceMode]
      rw [jsMaxI_eq_max, jsMinI_eq_min]
      omega
  | nan => exact Nat.zero_le _
  | posInf => exact Nat.zero_le _
  | negInf => exact Nat.zero_le _

/-! ## Range invariants of the two parsers -/

theorem standardParse_inRange (bytes : ByteSeq) :
    stateInRange (StandardProtocol.parseStatus bytes) := by
  unfold StandardProtocol.parseStatus
  split
  · norm_num [stateInRange, createDefaultState]
  · unfold stateInRange
    dsimp only
    exact ⟨(clampSpeed_mem _).1, (clampSpeed_mem _).2, clampTime_le _,
      (clampDistance_mem _).1, (clampDistance_mem _).2, clampSteps_le _,
      clampDeviceState_le _, clampDeviceMode_le _⟩

theorem applyFtmsField_inRange (bytes : ByteSeq) (off : ℕ)
    (st : WalkingPadState) (a : FtmsFieldAction) (h : stateInRange st) :
    stateInRange (applyFtmsField bytes off st a) := by
  obtain ⟨h1, h2, h3, h4, h5, h6, h7, h8⟩ := h
  cases a with
  | skip => exact ⟨h1, h2, h3, h4, h5, h6, h7, h8⟩
  | totalDistance =>
      unfold applyFtmsField stateInRange
      dsimp only
      exact ⟨h1, h2, h3, (clampDistance_mem _).1, (clampDistance_mem _).2,
        h6, h7, h8⟩
  | elapsedTime =>
      unfold applyFtmsField stateInRange
      dsimp only
      exact ⟨h1, h2, clampTime_le _, h4, h5, h6, h7, h8⟩

theorem processFtmsFields_inRange (bytes : ByteSeq) (flags : ℕ)
    (fs : List FtmsField) :
    ∀ (st : WalkingPadState) (off : ℕ), stateInRange st →
      stateInRange (processFtmsFields bytes flags fs st off).2.1 := by
  induction fs with
  | nil => intro st off h; exact h
  | cons f rest ih =>
      intro st off h
      unfold processFtmsFields
      split
      · split
        · exact h
        · exact ih _ _ (applyFtmsField_inRange bytes off st f.action h)
      · exact ih st off h

theorem ftmsInit_inRange (bytes : ByteSeq) :
    stateInRange (ftmsInit bytes).1 := by
  unfold ftmsInit
  split
  · unfold stateInRange createDefaultState
    dsimp only
    refine ⟨(clampSpeed_mem _).1, (clampSpeed_mem _).2, ?_, ?_, ?_, ?_, ?_, ?_⟩
      <;> norm_num
  · norm_num [stateInRange, createDefaultState]

theorem ftmsFinish_inRange (bytes : ByteSeq)
    (r : Bool × WalkingPadState × ℕ) (h : stateInRange r.2.1) :
    stateInRange (ftmsFinish bytes r) := by
  obtain ⟨c, st, off⟩ := r
  obtain ⟨h1, h2, h3, h4, h5, h6, h7, h8⟩ := h
  cases c with
  | false => exact ⟨h1, h2, h3, h4, h5, h6, h7, h8⟩
  | true =>
      unfold ftmsFinish stateInRange
      dsimp only
      split
      · exact ⟨h1, h2, h3, h4, h5,
          clampSteps_le (JSNum.num (readUint16LE bytes off : ℚ)),
          clampDeviceState_le (JSNum.num (if 0 < st.speed then 1 else 0)),
          clampDeviceMode_le (JSNum.num (if 0 < st.speed then 1 else 0))⟩
      · exact ⟨h1, h2, h3, h4, h5, h6,
          clampDeviceState_le (JSNum.num (if 0 < st.speed then 1 else 0)),
          clampDeviceMode_le (JSNum.num (if 0 < st.speed then 1 else 0))⟩

theorem ftmsParse_inRange (bytes : ByteSeq) :
    stateInRange (FTMSProtocol.parseStatus bytes) := by
  unfold FTMSProtocol.parseStatus
  split
  · norm_num [stateInRange, createDefaultState]
  · exact ftmsFinish_inRange bytes _
      (processFtmsFields_inRange bytes _ _ _ _ (ftmsInit_inRange bytes))

/-! ## Clamp boundary behaviour -/

theorem floor_neg_of_neg {q : ℚ} (h : q < 0) : ⌊q⌋ < 0 :=
  Int.floor_lt.mpr (by exact_mod_cast h)

theorem floor_ge_of_gt {q : ℚ} {n : ℤ} (h : (n : ℚ) < q) : n ≤ ⌊q⌋ :=
  Int.le_floor.mpr (le_of_lt h)

theorem floor_le_of_le {q : ℚ} {n : ℤ} (h : q ≤ (n : ℚ)) : ⌊q⌋ ≤ n := by
  have := (Int.floor_le q).trans h
  exact_mod_cast this

theorem clampSpeed_neg {q : ℚ} (h : q < 0) : clampSpeed (.num q) = 0 := by
  simp only [clampSpeed, MAX_SPEED_KMH]
  rw [jsMax_eq_max, jsMin_eq_min, min_eq_left (by linarith), max_eq_left h.le]

theorem clampDistance_neg {q : ℚ} (h : q < 0) : clampDistance (.num q) = 0 := by
  simp only [clampDistance, MAX_DISTANCE_KM]
  rw [jsMax_eq_max, jsMin_eq_min, min_eq_left (by linarith), max_eq_left h.le]

theorem clampTime_neg {q : ℚ} (h : q < 0) : clampTime (.num q) = 0 := by
  have hf := floor_neg_of_neg h
  simp only [clampTime, MAX_TIME_SECONDS]
  rw [jsMaxI_eq_max, jsMinI_eq_min]
  omega

theorem clampSteps_neg {q : ℚ} (h : q < 0) : clampSteps (.num q) = 0 := by
  have hf := floor_neg_of_neg h
  simp only [clampSteps, MAX_STEPS]
  rw [jsMaxI_eq_max, jsMinI_eq_min]
  omega

theorem clampDeviceState_neg {q : ℚ} (h : q < 0) :
    clampDeviceState (.num q) = 0 := by
  have hf := floor_neg_of_neg h
  simp only [clampDeviceState]
  rw [jsMaxI_eq_max, jsMinI_eq_min]
  omega

theorem clampDeviceMode_neg {q : ℚ} (h : q < 0) :
    clampDeviceMode (.num q) = 0 := by
  have hf := floor_neg_of_neg h
  simp only [clampDeviceMode]
  rw [jsMaxI_eq_max, jsMinI_eq_min]
  omega

theorem clampSpeed_high {q : ℚ} (h : 25 < q) : clampSpeed (.num q) = 25 := by
  simp only [clampSpeed, MAX_SPEED_KMH]
  rw [jsMax_eq_max, jsMin_eq_min, min_eq_right h.le, max_eq_right (by norm_num)]

theorem clampDistance_high {q : ℚ} (h : 100 < q) :
    clampDistance (.num q) = 100 := by
  simp only [clampDistance, MAX_DISTANCE_KM]
  rw [jsMax_eq_max, jsMin_eq_min, min_eq_right h.le, max_eq_right (by norm_num)]

theorem clampTime_high {q : ℚ} (h : 86400 < q) : clampTime (.num q) = 86400 := by
  have hf : (86400 : ℤ) ≤ ⌊q⌋ := floor_ge_of_gt (by exact_mod_cast h)
  simp only [clampTime, MAX_TIME_SECONDS]
  rw [jsMaxI_eq_max, jsMinI_eq_min]
  omega

theorem clampSteps_high {q : ℚ} (h : 200000 < q) :
    clampSteps (.num q) = 200000 := by
  have hf : (200000 : ℤ) ≤ ⌊q⌋ := floor_ge_of_gt (by exact_mod_cast h)
  simp only [clampSteps, MAX_STEPS]
  rw [jsMaxI_eq_max, jsMinI_eq_min]
  omega

theorem clampDeviceState_high {q : ℚ} (h : 3 < q) :
    clampDeviceState (.num q) = 3 := by
  have hf : (3 : ℤ) ≤ ⌊q⌋ := floor_ge_of_gt (by exact_mod_cast h)
  simp only [clampDeviceState]
  rw [jsMaxI_eq_max, jsMinI_eq_min]
  omega

theorem clampDeviceMode_high {q : ℚ} (h : 2 < q) :
    clampDeviceMode (.num q) = 2 := by
  have hf : (2 : ℤ) ≤ ⌊q⌋ := floor_ge_of_gt (by exact_mod_cast h)
  simp only [clampDeviceMode]
  rw [jsMaxI_eq_max, jsMinI_eq_min]
  omega

theorem clampTime_floor {q : ℚ} (h0 : 0 ≤ q) (h1 : q ≤ 86400) :
    clampTime (.num q) = ⌊q⌋.toNat := by
  have ha : 0 ≤ ⌊q⌋ := Int.floor_nonneg.mpr h0
  have hb : ⌊q⌋ ≤ 86400 := floor_le_of_le (by exact_mod_cast h1)
  simp only [clampTime, MAX_TIME_SECONDS]
  rw [jsMaxI_eq_max, jsMinI_eq_min]
  omega

theorem clampSteps_floor {q : ℚ} (h0 : 0 ≤ q) (h1 : q ≤ 200000) :
    clampSteps (.num q) = ⌊q⌋.toNat := by
  have ha : 0 ≤ ⌊q⌋ := Int.floor_nonneg.mpr h0
  have hb : ⌊q⌋ ≤ 200000 := floor_le_of_le (by exact_mod_cast h1)
  simp only [clampSteps, MAX_STEPS]
  rw [jsMaxI_eq_max, jsMinI_eq_min]
  omega

theorem clampDeviceState_floor {q : ℚ} (h0 : 0 ≤ q) (h1 : q ≤ 3) :
    clampDeviceState (.num q) = ⌊q⌋.toNat := by
  have ha : 0 ≤ ⌊q⌋ := Int.floor_nonneg.mpr h0
  have hb : ⌊q⌋ ≤ 3 := floor_le_of_le (by exact_mod_cast h1)
  simp only [clampDeviceState]
  rw [jsMaxI_eq_max, jsMinI_eq_min]
  omega

theorem clampDeviceMode_floor {q : ℚ} (h0 : 0 ≤ q) (h1 : q ≤ 2) :
    clampDeviceMode (.num q) = ⌊q⌋.toNat := by
  have ha : 0 ≤ ⌊q⌋ := Int.floor_nonneg.mpr h0
  have hb : ⌊q⌋ ≤ 2 := floor_le_of_le (by exact_mod_cast h1)
  simp only [clampDeviceMode]
  rw [jsMaxI_eq_max, jsMinI_eq_min]
  omega

theorem clamp_nonfinite (v : JSNum) (h : v.isFinite = false) :
    clampSpeed v = 0 ∧ clampTime v = 0 ∧ clampDistance v = 0 ∧
    clampSteps v = 0 ∧ clampDeviceState v = 0 ∧ clampDeviceMode v = 0 := by
  cases v with
  | num q => simp [JSNum.isFinite] at h
  | nan => exact ⟨rfl, rfl, rfl, rfl, rfl, rfl⟩
  | posInf => exact ⟨rfl, rfl, rfl, rfl, rfl, rfl⟩
  | negInf => exact ⟨rfl, rfl, rfl, rfl, rfl, rfl⟩

/-! ## Claim theorems -/

/-- Claim C3: for every input byte sequence, both codecs' `parseStatus`
return a state with every numeric field in its declared clamp range
(speed in [0, 25], time an integer in [0, 86400] — integrality by the
`ℕ` field type — distance in [0, 100], steps an integer in [0, 200000],
state in {0,1,2,3}, mode in {0,1,2}); the clamps map non-finite raw
values to 0, out-of-range values to the nearest boundary, and floor
fractional enum/time/steps values. -/
theorem parse_status_fields_clamped :
    (∀ bytes : ByteSeq, stateInRange (StandardProtocol.parseStatus bytes)) ∧
    (∀ bytes : ByteSeq, stateInRange (FTMSProtocol.parseStatus bytes)) ∧
    (∀ v : JSNum, v.isFinite = false →
      clampSpeed v = 0 ∧ clampTime v = 0 ∧ clampDistance v = 0 ∧
      clampSteps v = 0 ∧ clampDeviceState v = 0 ∧ clampDeviceMode v = 0) ∧
    (∀ q : ℚ, q < 0 →
      clampSpeed (.num q) = 0 ∧ clampTime (.num q) = 0 ∧
      clampDistance (.num q) = 0 ∧ clampSteps (.num q) = 0 ∧
      clampDeviceState (.num q) = 0 ∧ clampDeviceMode (.num q) = 0) ∧
    (∀ q : ℚ, 25 < q → clampSpeed (.num q) = 25) ∧
    (∀ q : ℚ, 86400 < q → clampTime (.num q) = 86400) ∧
    (∀ q : ℚ, 100 < q → clampDistance (.num q) = 100) ∧
    (∀ q : ℚ, 200000 < q → clampSteps (.num q) = 200000) ∧
    (∀ q : ℚ, 3 < q → clampDeviceState (.num q) = 3) ∧
    (∀ q : ℚ, 2 < q → clampDeviceMode (.num q) = 2) ∧
    (∀ q : ℚ, 0 ≤ q → q ≤ 86400 → clampTime (.num q) = ⌊q⌋.toNat) ∧
    (∀ q : ℚ, 0 ≤ q → q ≤ 200000 → clampSteps (.num q) = ⌊q⌋.toNat) ∧
    (∀ q : ℚ, 0 ≤ q → q ≤ 3 → clampDeviceState (.num q) = ⌊q⌋.toNat) ∧
    (∀ q : ℚ, 0 ≤ q → q ≤ 2 → clampDeviceMode (.num q) = ⌊q⌋.toNat) := by
  refine ⟨standardParse_inRange, ftmsParse_inRange, clamp_nonfinite,
    ?_, ?_, ?_, ?_, ?_, ?_, ?_, ?_, ?_, ?_, ?_⟩
  · intro q h
    exact ⟨clampSpeed_neg h, clampTime_neg h, clampDistance_neg h,
      clampSteps_neg h, clampDeviceState_neg h, clampDeviceMode_neg h⟩
  · intro q h; exact clampSpeed_high h
  · intro q h; exact clampTime_high h
  · intro q h; exact clampDistance_high h
  · intro q h; exact clampSteps_high h
  · intro q h; exact clampDeviceState_high h
  · intro q h; exact clampDeviceMode_high h
  · intro q h0 h1; exact clampTime_floor h0 h1
  · intro q h0 h1; exact clampSteps_floor h0 h1
  · intro q h0 h1; exact clampDeviceState_floor h0 h1
  · intro q h0 h1; exact clampDeviceMode_floor h0 h1

/-- Witness for C3 at concrete inputs. -/
theorem parse_status_fields_clamped_witness :
    stateInRange (StandardProtocol.parseStatus sampleStatusPacket) ∧
    stateInRange (FTMSProtocol.parseStatus sampleFtmsPacket) ∧
    clampSpeed (.num 30) = 25 ∧
    clampDeviceMode .nan = 0 ∧
    clampTime (.num (5 / 2 : ℚ)) = (⌊(5 / 2 : ℚ)⌋).toNat := by
  obtain ⟨hstd, hftms, hnf, hneg, hsp, htm, hds, hst, hdev, hmd,
    hfl1, hfl2, hfl3, hfl4⟩ := parse_status_fields_clamped
  exact ⟨hstd _, hftms _, hsp 30 (by norm_num), (hnf .nan rfl).2.2.2.2.2,
    hfl1 (5 / 2) (by norm_num) (by norm_num)⟩

/-- Claim C4: inputs shorter than the codec minimum (16 bytes standard,
2 bytes FTMS) parse to the default all-zeros state, and a standard input
of length exactly 16 is parsed at the fixed offsets (state 2, speed 3,
mode 4, time 5, distance 8, steps 11). -/
theorem parse_short_input_default :
    (∀ bytes : ByteSeq, bytes.length < 16 →
      StandardProtocol.parseStatus bytes = createDefaultState) ∧
    (∀ bytes : ByteSeq, bytes.length < 2 →
      FTMSProtocol.parseStatus bytes = createDefaultState) ∧
    (∀ bytes : ByteSeq, bytes.length = 16 →
      StandardProtocol.parseStatus bytes =
        { state := clampDeviceState (.num (readByte bytes STANDARD_OFFSET_STATE))
          speed := clampSpeed
            (.num ((readByte bytes STANDARD_OFFSET_SPEED : ℚ) / STANDARD_SPEED_SCALE))
          mode := clampDeviceMode (.num (readByte bytes STANDARD_OFFSET_MODE))
          time := clampTime (.num (readUint24BE bytes STANDARD_OFFSET_TIME))
          distance := clampDistance
            (.num ((readUint24BE bytes STANDARD_OFFSET_DISTANCE : ℚ) /
              STANDARD_DISTANCE_SCALE))
          steps := clampSteps (.num (readUint24BE bytes STANDARD_OFFSET_STEPS))
          isRunning := decide (0 < clampSpeed
              (.num ((readByte bytes STANDARD_OFFSET_SPEED : ℚ) /
                STANDARD_SPEED_SCALE))) ||
            decide (clampDeviceState
              (.num (readByte bytes STANDARD_OFFSET_STATE)) = 1) }) := by
  refine ⟨?_, ?_, ?_⟩
  · intro bytes h
    unfold StandardProtocol.parseStatus
    rw [if_pos (by simpa [STANDARD_MIN_STATUS_LENGTH] using h)]
  · intro bytes h
    unfold FTMSProtocol.parseStatus
    rw [if_pos (by simpa [FTMS_MIN_PACKET_LENGTH] using h)]
  · intro bytes h
    unfold StandardProtocol.parseStatus
    rw [if_neg (by simp [STANDARD_MIN_STATUS_LENGTH, h])]

/-- Witness for C4: a 15-byte buffer yields the default state, a 1-byte
FTMS buffer yields the default state, and the 16-byte fixture packet is
parsed at the fixed offsets. -/
theorem parse_short_input_default_witness :
    StandardProtocol.parseStatus (List.replicate 15 0) = createDefaultState ∧
    FTMSProtocol.parseStatus [0x2a] = createDefaultState ∧
    StandardProtocol.parseStatus sampleStatusPacket =
      { state := clampDeviceState
          (.num (readByte sampleStatusPacket STANDARD_OFFSET_STATE))
        speed := clampSpeed
          (.num ((readByte sampleStatusPacket STANDARD_OFFSET_SPEED : ℚ) /
            STANDARD_SPEED_SCALE))
        mode := clampDeviceMode
          (.num (readByte sampleStatusPacket STANDARD_OFFSET_MODE))
        time := clampTime
          (.num (readUint24BE sampleStatusPacket STANDARD_OFFSET_TIME))
        distance := clampDistance
          (.num ((readUint24BE sampleStatusPacket STANDARD_OFFSET_DISTANCE : ℚ) /
            STANDARD_DISTANCE_SCALE))
        steps := clampSteps
          (.num (readUint24BE sampleStatusPacket STANDARD_OFFSET_STEPS))
        isRunning := decide (0 < clampSpeed
            (.num ((readByte sampleStatusPacket STANDARD_OFFSET_SPEED : ℚ) /
              STANDARD_SPEED_SCALE))) ||
          decide (clampDeviceState
            (.num (readByte sampleStatusPacket STANDARD_OFFSET_STATE)) = 1) } :=
  ⟨parse_short_input_default.1 _ (by decide),
   parse_short_input_default.2.1 _ (by decide),
   parse_short_input_default.2.2 _ (by decide)⟩

/-- `createPacket` on a two-byte body, written out. -/
theorem createPacket_two (a b : ℕ) :
    createPacket [a, b] =
      [0xf7, 0xa2, a % 256, b % 256,
       (0xa2 + (a % 256 + (b % 256 + 0))) % 256, 0xfd] := rfl

/-- Frame shape of a two-byte-body packet: headers, suffix, checksum. -/
theorem createPacket_frame_two (a b : ℕ) :
    (createPacket [a, b]).getD 0 0 = 0xf7 ∧
    (createPacket [a, b]).getD 1 0 = 0xa2 ∧
    (createPacket [a, b]).getD ((createPacket [a, b]).length - 1) 0 = 0xfd ∧
    (createPacket [a, b]).getD ((createPacket [a, b]).length - 2) 0 =
      (((createPacket [a, b]).drop 1).take
        ((createPacket [a, b]).length - 3)).sum % 256 := by
  rw [createPacket_two]
  exact ⟨rfl, rfl, rfl, rfl⟩

/-- Claim C2: every packet produced by the standard builders `cmdStart`,
`cmdStop`, `cmdAskStats` and `cmdSetSpeed` (on an accepted speed) has
the shape `[0xF7, 0xA2, <body>, checksum, 0xFD]`: bytes 0..1 are the
headers, the last byte is `0xFD`, and the second-to-last byte is the sum
of bytes 1 .. n-3 (header-2 through the last body byte) mod 256. -/
theorem standard_packet_frame_ok :
    ∀ pkt : List ℕ,
      (pkt = StandardProtocol.cmdStart ∨ pkt = StandardProtocol.cmdStop ∨
       pkt = StandardProtocol.cmdAskStats ∨
       ∃ v : ℚ, StandardProtocol.cmdSetSpeed (.num v) = .ok pkt) →
      pkt.getD 0 0 = 0xf7 ∧ pkt.getD 1 0 = 0xa2 ∧
      pkt.getD (pkt.length - 1) 0 = 0xfd ∧
      pkt.getD (pkt.length - 2) 0 =
        ((pkt.drop 1).take (pkt.length - 3)).sum % 256 := by
  rintro pkt (rfl | rfl | rfl | ⟨v, hv⟩)
  · exact ⟨rfl, rfl, rfl, rfl⟩
  · exact ⟨rfl, rfl, rfl, rfl⟩
  · exact ⟨rfl, rfl, rfl, rfl⟩
  · simp only [StandardProtocol.cmdSetSpeed] at hv
    split at hv
    · exact absurd hv (by simp)
    · injection hv with h
      subst h
      exact createPacket_frame_two _ _

/-- Witness for C2: the `cmdStart` packet and the `cmdSetSpeed(3.5)`
packet both carry the frame shape. -/
theorem standard_packet_frame_ok_witness :
    (StandardProtocol.cmdStart.getD 0 0 = 0xf7 ∧
     StandardProtocol.cmdStart.getD 1 0 = 0xa2 ∧
     StandardProtocol.cmdStart.getD (StandardProtocol.cmdStart.length - 1) 0 =
       0xfd ∧
     StandardProtocol.cmdStart.getD (StandardProtocol.cmdStart.length - 2) 0 =
       ((StandardProtocol.cmdStart.drop 1).take
         (StandardProtocol.cmdStart.length - 3)).sum % 256) ∧
    (([0xf7, 0xa2, 0x03, 0x23, 0xc8, 0xfd] : List ℕ).getD 4 0 =
      ((([0xf7, 0xa2, 0x03, 0x23, 0xc8, 0xfd] : List ℕ).drop 1).take 3).sum %
        256) := by
  have h1 := standard_packet_frame_ok StandardProtocol.cmdStart (Or.inl rfl)
  have h2 := standard_packet_frame_ok [0xf7, 0xa2, 0x03, 0x23, 0xc8, 0xfd]
    (Or.inr (Or.inr (Or.inr ⟨3.5, by
      have hr : jsRound (35 : ℚ) = 35 := by norm_num [jsRound]
      norm_num [StandardProtocol.cmdSetSpeed, STANDARD_DEFAULT_MIN_SPEED_KMH,
        STANDARD_DEFAULT_MAX_SPEED_KMH, hr, STANDARD_CMD_SET_SPEED_OP,
        STANDARD_SPEED_SCALE, createPacket, STANDARD_PACKET_HEADER_1,
        STANDARD_PACKET_HEADER_2, STANDARD_PACKET_SUFFIX]
      omega⟩)))
  exact ⟨h1, h2.2.2.2⟩

/-- Claim C5: on both codecs, `cmdSetSpeed(v)` succeeds exactly for
finite v with 0.5 ≤ v ≤ 6.0 and otherwise throws `SpeedOutOfRange`
carrying `(value, min, max)`; on success the standard body is
`[0x03, round(v*10)]` (framed) and the FTMS payload is
`[0x02, round(v*100)]` as u16 little-endian. -/
theorem cmd_set_speed_validation :
    (∀ v : ℚ, 0.5 ≤ v → v ≤ 6 →
      StandardProtocol.cmdSetSpeed (.num v) =
        .ok (createPacket [0x03, (jsRound (v * 10)).toNat]) ∧
      FTMSProtocol.cmdSetSpeed (.num v) =
        .ok [0x02, (jsRound (v * 100)).toNat % 256,
          (jsRound (v * 100)).toNat / 256]) ∧
    (∀ v : ℚ, v < 0.5 ∨ 6 < v →
      StandardProtocol.cmdSetSpeed (.num v) = .error ⟨.num v, 0.5, 6⟩ ∧
      FTMSProtocol.cmdSetSpeed (.num v) = .error ⟨.num v, 0.5, 6⟩) ∧
    (∀ w : JSNum, w.isFinite = false →
      StandardProtocol.cmdSetSpeed w = .error ⟨w, 0.5, 6⟩ ∧
      FTMSProtocol.cmdSetSpeed w = .error ⟨w, 0.5, 6⟩) := by
  have hmin : STANDARD_DEFAULT_MIN_SPEED_KMH = 0.5 := rfl
  have hmax : STANDARD_DEFAULT_MAX_SPEED_KMH = (6 : ℚ) := by
    norm_num [STANDARD_DEFAULT_MAX_SPEED_KMH]
  have hmin2 : FTMS_DEFAULT_MIN_SPEED_KMH = 0.5 := rfl
  have hmax2 : FTMS_DEFAULT_MAX_SPEED_KMH = (6 : ℚ) := by
    norm_num [FTMS_DEFAULT_MAX_SPEED_KMH]
  refine ⟨?_, ?_, ?_⟩
  · intro v h1 h2
    have hno : ¬(v < 0.5 ∨ (6 : ℚ) < v) := by
      push_neg
      exact ⟨h1, h2⟩
    constructor
    · simp only [StandardProtocol.cmdSetSpeed, hmin, hmax,
        STANDARD_SPEED_SCALE, STANDARD_CMD_SET_SPEED_OP]
      rw [if_neg hno]
    · have hub : jsRound (v * 100) ≤ 600 := by
        have hq : v * 100 + 1 / 2 ≤ (1201 : ℚ) / 2 := by linarith
        have := Int.floor_le_floor hq
        have h600 : ⌊(1201 : ℚ) / 2⌋ = 600 := by
          rw [Int.floor_eq_iff]
          norm_num
        unfold jsRound
        omega
      have hmod : (jsRound (v * 100)).toNat % 65536 =
          (jsRound (v * 100)).toNat := Nat.mod_eq_of_lt (by omega)
      simp only [FTMSProtocol.cmdSetSpeed, hmin2, hmax2,
        FTMS_SPEED_SCALE, FTMS_OP_SET_TARGET_SPEED]
      rw [if_neg hno]
      rw [hmod]
  · intro v h
    constructor
    · simp only [StandardProtocol.cmdSetSpeed, hmin, hmax]
      rw [if_pos h]
    · simp only [FTMSProtocol.cmdSetSpeed, hmin2, hmax2]
      rw [if_pos h]
  · intro w hw
    cases w with
    | num q => simp [JSNum.isFinite] at hw
    | nan => exact ⟨by simp [StandardProtocol.cmdSetSpeed, hmin, hmax],
        by simp [FTMSProtocol.cmdSetSpeed, hmin2, hmax2]⟩
    | posInf => exact ⟨by simp [StandardProtocol.cmdSetSpeed, hmin, hmax],
        by simp [FTMSProtocol.cmdSetSpeed, hmin2, hmax2]⟩
    | negInf => exact ⟨by simp [StandardProtocol.cmdSetSpeed, hmin, hmax],
        by simp [FTMSProtocol.cmdSetSpeed, hmin2, hmax2]⟩

/-- Witness for C5: the boundaries 0.5 and 6.0 succeed, 0.4999 and
6.0001 fail, and a non-finite speed fails. -/
theorem cmd_set_speed_validation_witness :
    StandardProtocol.cmdSetSpeed (.num 0.5) =
      .ok (createPacket [0x03, (jsRound ((0.5 : ℚ) * 10)).toNat]) ∧
    FTMSProtocol.cmdSetSpeed (.num 6) =
      .ok [0x02, (jsRound ((6 : ℚ) * 100)).toNat % 256,
        (jsRound ((6 : ℚ) * 100)).toNat / 256] ∧
    StandardProtocol.cmdSetSpeed (.num 0.4999) =
      .error ⟨.num 0.4999, 0.5, 6⟩ ∧
    FTMSProtocol.cmdSetSpeed (.num 6.0001) =
      .error ⟨.num 6.0001, 0.5, 6⟩ ∧
    StandardProtocol.cmdSetSpeed .nan = .error ⟨.nan, 0.5, 6⟩ :=
  ⟨(cmd_set_speed_validation.1 0.5 (by norm_num) (by norm_num)).1,
   (cmd_set_speed_validation.1 6 (by norm_num) (by norm_num)).2,
   (cmd_set_speed_validation.2.1 0.4999 (Or.inl (by norm_num))).1,
   (cmd_set_speed_validation.2.1 6.0001 (Or.inr (by norm_num))).2,
   (cmd_set_speed_validation.2.2 .nan rfl).1⟩

/-- Claim C8: the machine accepts exactly the transitions
disconnected→connecting, connecting→{connected, error, disconnected},
connected→disconnected, error→{disconnected, connecting}; a rejected
transition throws and changes nothing (and fires no observer); an
accepted one installs the target state and invokes each registered
observer exactly once, in registration order, with `(from, to)`; and the
machine outcome never depends on the observers (their exceptions are
caught, never propagated). -/
theorem state_machine_transition_spec :
    ∀ (κ : Type) (s t : ConnectionState) (cbs : List κ),
      ((transition s cbs t).threw = false ↔
        (s, t) ∈ ([(.disconnected, .connecting), (.connecting, .connected),
          (.connecting, .error), (.connecting, .disconnected),
          (.connected, .disconnected), (.error, .disconnected),
          (.error, .connecting)] :
            List (ConnectionState × ConnectionState))) ∧
      ((transition s cbs t).threw = true →
        (transition s cbs t).state = s ∧ (transition s cbs t).fired = []) ∧
      ((transition s cbs t).threw = false →
        (transition s cbs t).state = t ∧
        (transition s cbs t).fired = cbs.map fun cb => (cb, s, t)) ∧
      ((transition s cbs t).threw = (transition s ([] : List κ) t).threw ∧
       (transition s cbs t).state = (transition s ([] : List κ) t).state) := by
  intro κ s t cbs
  have hiff : (canTransition s t = true) ↔
      (s, t) ∈ ([(.disconnected, .connecting), (.connecting, .connected),
        (.connecting, .error), (.connecting, .disconnected),
        (.connected, .disconnected), (.error, .disconnected),
        (.error, .connecting)] :
          List (ConnectionState × ConnectionState)) := by
    cases s <;> cases t <;> decide
  by_cases h : canTransition s t = true
  · simp only [transition, h, if_true]
    exact ⟨by simpa using hiff.mp h, by simp, by simp, by simp⟩
  · simp only [transition, h, if_false]
    refine ⟨⟨fun hcon => by simp at hcon,
      fun hmem => absurd (hiff.mpr hmem) h⟩, by simp, by simp, by simp⟩

/-- Witness for C8: `disconnected → connecting` with one observer fires
it once with the pair; `connected → connecting` is rejected and leaves
the state and observers untouched. -/
theorem state_machine_transition_spec_witness :
    (transition ConnectionState.disconnected [(7 : ℕ)]
      ConnectionState.connecting).state = ConnectionState.connecting ∧
    (transition ConnectionState.disconnected [(7 : ℕ)]
      ConnectionState.connecting).fired =
      [(7, ConnectionState.disconnected, ConnectionState.connecting)] ∧
    (transition ConnectionState.connected [(7 : ℕ)]
      ConnectionState.connecting).state = ConnectionState.connected ∧
    (transition ConnectionState.connected [(7 : ℕ)]
      ConnectionState.connecting).fired = [] := by
  have h1 := (state_machine_transition_spec ℕ ConnectionState.disconnected
    ConnectionState.connecting [7]).2.2.1 (by decide)
  have h2 := (state_machine_transition_spec ℕ ConnectionState.connected
    ConnectionState.connecting [7]).2.1 (by decide)
  exact ⟨h1.1, h1.2, h2.1, h2.2⟩

/-! ## Poll-loop run lemmas -/

theorem pollRun_stopped (s : PollState) (hs : s.stopped = true) :
    ∀ l : List Bool, pollRun 3 s l = (s, 0) := by
  intro l
  induction l with
  | nil => rfl
  | cons o rest ih =>
      simp only [pollRun, pollTick, hs]
      simpa using ih

theorem pollRun_replicate_false (n : ℕ) :
    ∀ c : ℕ, c < 3 →
      (pollRun 3 ⟨c, false⟩ (List.replicate n false)).2 = min n (3 - c) := by
  induction n with
  | zero => intro c hc; simp [pollRun]
  | succ n ih =>
      intro c hc
      rw [List.replicate_succ]
      simp only [pollRun, pollTick]
      by_cases h3 : 3 ≤ c + 1
      · have hs : decide (3 ≤ c + 1) = true := decide_eq_true h3
        simp only [hs]
        rw [if_neg Bool.false_ne_true, if_neg Bool.false_ne_true]
        rw [pollRun_stopped ⟨c + 1, true⟩ rfl]
        omega
      · have hs : decide (3 ≤ c + 1) = false := decide_eq_false h3
        simp only [hs]
        rw [if_neg Bool.false_ne_true, if_neg Bool.false_ne_true]
        rw [ih (c + 1) (by omega)]
        omega

theorem pollRun_replicate_false_state (m : ℕ) :
    ∀ c : ℕ, c + m < 3 →
      pollRun 3 ⟨c, false⟩ (List.replicate m false) = (⟨c + m, false⟩, m) := by
  induction m with
  | zero => intro c hc; rfl
  | succ m ih =>
      intro c hc
      rw [List.replicate_succ]
      simp only [pollRun, pollTick]
      have hs : decide (3 ≤ c + 1) = false := decide_eq_false (by omega)
      simp only [hs]
      rw [if_neg Bool.false_ne_true, if_neg Bool.false_ne_true]
      rw [ih (c + 1) (by omega)]
      simp only [Prod.mk.injEq, PollState.mk.injEq]
      refine ⟨⟨by omega, trivial⟩, by omega⟩

theorem pollRun_append (l1 : List Bool) :
    ∀ (s : PollState) (l2 : List Bool),
      pollRun 3 s (l1 ++ l2) =
        ((pollRun 3 (pollRun 3 s l1).1 l2).1,
         (pollRun 3 s l1).2 + (pollRun 3 (pollRun 3 s l1).1 l2).2) := by
  induction l1 with
  | nil => intro s l2; simp [pollRun]
  | cons o rest ih =>
      intro s l2
      simp only [List.cons_append, pollRun, List.append_eq]
      rw [ih]
      simp only [Prod.mk.injEq]
      exact ⟨trivial, by omega⟩

/-- Claim C9: with `maxConsecutiveErrors = 3`, each failing tick
increments the consecutive-error counter and emits exactly one error,
each successful tick resets the counter to 0, a stopped loop never ticks
again, a perpetually failing write emits exactly `min n 3` errors over
`n` ticks (so exactly 3 before polling stops), and a success in between
restarts the budget. -/
theorem poll_manager_error_budget :
    (∀ s : PollState, s.stopped = false →
      pollTick 3 s false =
        ({ consecutiveErrors := s.consecutiveErrors + 1,
           stopped := decide (3 ≤ s.consecutiveErrors + 1) }, 1)) ∧
    (∀ s : PollState, s.stopped = false →
      pollTick 3 s true = ({ consecutiveErrors := 0, stopped := false }, 0)) ∧
    (∀ (s : PollState) (b : Bool), s.stopped = true → pollTick 3 s b = (s, 0)) ∧
    (∀ n : ℕ, pollErrors (List.replicate n false) = min n 3) ∧
    (∀ m n : ℕ, m < 3 →
      pollErrors (List.replicate m false ++ true :: List.replicate n false) =
        m + min n 3) := by
  refine ⟨?_, ?_, ?_, ?_, ?_⟩
  · intro s hs
    simp [pollTick, hs]
  · intro s hs
    simp [pollTick, hs]
  · intro s b hs
    simp [pollTick, hs]
  · intro n
    unfold pollErrors
    rw [pollRun_replicate_false n 0 (by omega)]
  · intro m n hm
    unfold pollErrors
    rw [pollRun_append]
    rw [pollRun_replicate_false_state m 0 (by omega)]
    have hreset : pollRun 3 (⟨0 + m, false⟩ : PollState)
        (true :: List.replicate n false) =
        ((pollRun 3 ⟨0, false⟩ (List.replicate n false)).1,
         (pollRun 3 ⟨0, false⟩ (List.replicate n false)).2) := by
      simp only [pollRun, pollTick]
      simp
    rw [hreset]
    rw [pollRun_replicate_false n 0 (by omega)]

/-- Witness for C9 at concrete scripts: five straight failures emit
exactly 3 errors; two failures, a success, then four failures emit
2 + 3 = 5 errors; a stopped loop ignores a tick. -/
theorem poll_manager_error_budget_witness :
    pollErrors (List.replicate 5 false) = min 5 3 ∧
    pollErrors (List.replicate 2 false ++ true :: List.replicate 4 false) =
      2 + min 4 3 ∧
    pollTick 3 ⟨3, true⟩ false = (⟨3, true⟩, 0) :=
  ⟨poll_manager_error_budget.2.2.2.1 5,
   poll_manager_error_budget.2.2.2.2 2 4 (by omega),
   poll_manager_error_budget.2.2.1 ⟨3, true⟩ false rfl⟩

/-- Claim C10: the standard parser performs no frame validation — two
buffers of length ≥ 16 that agree on offsets 2 through 13 parse to the
same state; the headers (0..1), the checksum (14) and the suffix (15)
are never inspected. -/
theorem standard_parse_ignores_frame_bytes :
    ∀ b1 b2 : ByteSeq, 16 ≤ b1.length → 16 ≤ b2.length →
      (∀ i : ℕ, 2 ≤ i → i ≤ 13 → readByte b1 i = readByte b2 i) →
      StandardProtocol.parseStatus b1 = StandardProtocol.parseStatus b2 := by
  intro b1 b2 h1 h2 hag
  have e24 : ∀ o : ℕ, 2 ≤ o → o + 2 ≤ 13 →
      readUint24BE b1 o = readUint24BE b2 o := by
    intro o ho ho2
    unfold readUint24BE
    rw [if_neg (by omega), if_neg (by omega)]
    rw [hag o ho (by omega), hag (o + 1) (by omega) (by omega),
      hag (o + 2) (by omega) (by omega)]
  unfold StandardProtocol.parseStatus
  rw [if_neg (by simp only [STANDARD_MIN_STATUS_LENGTH]; omega),
    if_neg (by simp only [STANDARD_MIN_STATUS_LENGTH]; omega)]
  simp only [STANDARD_OFFSET_STATE, STANDARD_OFFSET_SPEED,
    STANDARD_OFFSET_MODE, STANDARD_OFFSET_TIME, STANDARD_OFFSET_DISTANCE,
    STANDARD_OFFSET_STEPS]
  simp only [hag 2 (by omega) (by omega), hag 3 (by omega) (by omega),
    hag 4 (by omega) (by omega), e24 5 (by omega) (by omega),
    e24 8 (by omega) (by omega), e24 11 (by omega) (by omega)]

/-- Witness for C10: the fixture packet and a copy with corrupted
headers, checksum and suffix parse identically. -/
theorem standard_parse_ignores_frame_bytes_witness :
    StandardProtocol.parseStatus sampleStatusPacket =
      StandardProtocol.parseStatus
        ([0x00, 0xff, 0x01, 0x23, 0x00, 0x00, 0x00, 0x78, 0x00, 0x00, 0x32,
          0x00, 0x00, 0x64, 0xee, 0x11] : ByteSeq) :=
  standard_parse_ignores_frame_bytes sampleStatusPacket
    [0x00, 0xff, 0x01, 0x23, 0x00, 0x00, 0x00, 0x78, 0x00, 0x00, 0x32,
     0x00, 0x00, 0x64, 0xee, 0x11]
    (by decide) (by decide) (by decide)

/-! ## UUID matching lemmas -/

theorem jsToLower_length (a : List Char) : (jsToLower a).length = a.length := by
  simp [jsToLower]

theorem uuidMatches_of_short {a : List Char} (b : List Char)
    (ha : a.length ≠ 36) :
    uuidMatches a b = decide (jsToLower a = jsToLower b) := by
  unfold uuidMatches
  by_cases he : jsToLower a = jsToLower b
  · rw [if_pos he]
    simp [he]
  · rw [if_neg he, if_neg]
    · simp [he]
    · rintro ⟨h36, -⟩
      exact ha ((jsToLower_length a).symm.trans h36)

theorem uuidMatches_of_long {a : List Char} (b : List Char)
    (ha : a.length = 36) (hb : b.length = 36) :
    uuidMatches a b = decide (jsToLower a = jsToLower b) := by
  unfold uuidMatches
  by_cases he : jsToLower a = jsToLower b
  · rw [if_pos he]
    simp [he]
  · rw [if_neg he]
    split
    · next hc =>
        have hsub : jsSubstring (jsToLower a) 4 8 ≠ jsToLower b := by
          intro hq
          have hql := congrArg List.length hq
          rw [jsToLower_length b, hb] at hql
          simp [jsSubstring, jsToLower_length, ha] at hql
        simp [hsub, he]
    · simp [he]

/-- Claim C6 (amended): the UUID match is case-insensitive (it depends
only on the case-folded arguments), symmetric whenever the two arguments
are both long-form-length (36) or both not, and a length-36 UUID matches
a short id only through the four characters at positions 4..8 (so `1826`
elsewhere in the string does not match); symmetry fails only for mixed
long/short pairs, where only `match(long, short)` can hold. -/
theorem uuid_match_relation :
    (∀ a b : List Char, (a.length = 36 ↔ b.length = 36) →
      uuidMatches a b = uuidMatches b a) ∧
    (∀ a b c d : List Char, jsToLower a = jsToLower c →
      jsToLower b = jsToLower d → uuidMatches a b = uuidMatches c d) ∧
    (∀ a s : List Char, a.length = 36 → s.length ≠ 36 →
      uuidMatches a s = true → jsSubstring (jsToLower a) 4 8 = jsToLower s) ∧
    uuidMatches "ab1826cd".toList "1826".toList = false := by
  refine ⟨?_, ?_, ?_, by decide⟩
  · intro a b hiff
    by_cases ha : a.length = 36
    · rw [uuidMatches_of_long b ha (hiff.mp ha),
        uuidMatches_of_long a (hiff.mp ha) ha]
      exact decide_eq_decide.mpr eq_comm
    · rw [uuidMatches_of_short b ha,
        uuidMatches_of_short a (fun h => ha (hiff.mpr h))]
      exact decide_eq_decide.mpr eq_comm
  · intro a b c d h1 h2
    simp only [uuidMatches, h1, h2]
  · intro a s ha hs hm
    unfold uuidMatches at hm
    by_cases he : jsToLower a = jsToLower s
    · exfalso
      have := congrArg List.length he
      rw [jsToLower_length, jsToLower_length, ha] at this
      exact hs this.symm
    · rw [if_neg he] at hm
      split at hm
      · exact of_decide_eq_true hm
      · cases hm

/-- Witness for C6: symmetry at a same-length pair and the
positions-4..8 characterisation at the FTMS long form. -/
theorem uuid_match_relation_witness :
    uuidMatches "ABCD".toList "abcd".toList =
      uuidMatches "abcd".toList "ABCD".toList ∧
    jsSubstring (jsToLower "00001826-0000-1000-8000-00805f9b34fb".toList) 4 8 =
      jsToLower "1826".toList :=
  ⟨uuid_match_relation.1 _ _ (by decide),
   uuid_match_relation.2.2.1 _ _ (by decide) (by decide) (by decide)⟩

/-- Counterexample to C6 as stated: the match relation is not symmetric
on the short/long pair (`match(long, short)` holds, `match(short, long)`
does not). -/
theorem uuid_match_symmetry_counterexample :
    uuidMatches "00001826-0000-1000-8000-00805f9b34fb".toList
      "1826".toList = true ∧
    uuidMatches "1826".toList
      "00001826-0000-1000-8000-00805f9b34fb".toList = false := by
  decide

/-- Claim C7: protocol detection selects FTMS exactly when some
discovered service UUID matches the short FTMS id `1826` (equal to it
case-folded, or a 36-character long form with a dash at index 8 and
`1826` at positions 4..8), and standard otherwise; in particular on the
three service lists of §8 scenario 6. -/
theorem detect_protocol_ftms_iff :
    (∀ uuids : List (List Char),
      detectProtocol uuids = ProtocolName.ftms ↔
        ∃ u ∈ uuids, isFtmsServiceUuid u = true) ∧
    (∀ u : List Char, isFtmsServiceUuid u = true ↔
      (jsToLower u = GATT_FTMS_SERVICE ∨
       (u.length = 36 ∧ jsCharAt (jsToLower u) 8 = '-' ∧
        jsSubstring (jsToLower u) 4 8 = GATT_FTMS_SERVICE))) ∧
    detectProtocol ["00001826-0000-1000-8000-00805f9b34fb".toList] =
      ProtocolName.ftms ∧
    detectProtocol ["0000fe00-0000-1000-8000-00805f9b34fb".toList] =
      ProtocolName.standard ∧
    detectProtocol ["ab1826cd".toList] = ProtocolName.standard := by
  refine ⟨?_, ?_, by decide, by decide, by decide⟩
  · intro uuids
    unfold detectProtocol
    split
    · next h => exact iff_of_true rfl (List.any_eq_true.mp h)
    · next h =>
        refine iff_of_false (by simp) (fun hex => h (List.any_eq_true.mpr hex))
  · intro u
    have hshort : jsToLower GATT_FTMS_SERVICE = GATT_FTMS_SERVICE := by decide
    have hlen : (jsToLower u).length = u.length := jsToLower_length u
    simp only [isFtmsServiceUuid, hshort]
    split
    · next heq => exact iff_of_true rfl (Or.inl heq)
    · next hne =>
        split
        · next hc =>
            rw [decide_eq_true_eq]
            constructor
            · intro hs
              exact Or.inr ⟨hlen.symm.trans hc.1, hc.2, hs⟩
            · rintro (heq | ⟨-, -, hs⟩)
              · exact absurd heq hne
              · exact hs
        · next hc =>
            refine iff_of_false (by simp) ?_
            rintro (heq | ⟨hl, hd, hs⟩)
            · exact hne heq
            · exact hc ⟨hlen.trans hl, hd⟩

/-- Witness for C7: the FTMS long form satisfies the characterisation
and drives detection to `ftms`. -/
theorem detect_protocol_ftms_iff_witness :
    detectProtocol ["00001826-0000-1000-8000-00805f9b34fb".toList,
      "0000fe00-0000-1000-8000-00805f9b34fb".toList] = ProtocolName.ftms :=
  (detect_protocol_ftms_iff.1 _).mpr
    ⟨"00001826-0000-1000-8000-00805f9b34fb".toList, by decide, by decide⟩

/-- Claim C1 (amended): the FTMS parse derives
`state = (speed>0 ? 1 : 0)`, `mode = (speed>0 ? 1 : 0)` and
`isRunning = speed>0` for every input on which parsing does **not** halt
early; when a flagged optional field would exceed the buffer, the early
return keeps the derived fields at their defaults (state 0, mode 0, not
running) even if a positive speed was already parsed. -/
theorem ftms_derived_fields (bytes : ByteSeq)
    (h : ftmsHaltedEarly bytes = false) :
    (FTMSProtocol.parseStatus bytes).state =
      (if 0 < (FTMSProtocol.parseStatus bytes).speed then 1 else 0) ∧
    (FTMSProtocol.parseStatus bytes).mode =
      (if 0 < (FTMSProtocol.parseStatus bytes).speed then 1 else 0) ∧
    (FTMSProtocol.parseStatus bytes).isRunning =
      decide (0 < (FTMSProtocol.parseStatus bytes).speed) := by
  by_cases hlen : bytes.length < FTMS_MIN_PACKET_LENGTH
  · unfold FTMSProtocol.parseStatus
    rw [if_pos hlen]
    norm_num [createDefaultState]
  · have hc : (ftmsProcess bytes).1 = true := by
      unfold ftmsHaltedEarly at h
      rw [decide_eq_true (Nat.le_of_not_lt hlen)] at h
      simpa using h
    unfold FTMSProtocol.parseStatus
    rw [if_neg hlen]
    rcases hP : ftmsProcess bytes with ⟨c, st, off⟩
    rw [hP] at hc
    simp only at hc
    subst hc
    simp only [ftmsFinish]
    by_cases hsp : 0 < st.speed
    · have h1 : clampDeviceState (.num 1) = 1 := by
        norm_num [clampDeviceState, jsMinI, jsMaxI]
      have h2 : clampDeviceMode (.num 1) = 1 := by
        norm_num [clampDeviceMode, jsMinI, jsMaxI]
      split <;> simp [h1, h2, hsp]
    · have h1 : clampDeviceState (.num 0) = 0 := by
        norm_num [clampDeviceState, jsMinI, jsMaxI]
      have h2 : clampDeviceMode (.num 0) = 0 := by
        norm_num [clampDeviceMode, jsMinI, jsMaxI]
      split <;> simp [h1, h2, hsp]

/-- Witness for C1 (amended) at the completed FTMS fixture packet. -/
theorem ftms_derived_fields_witness :
    (FTMSProtocol.parseStatus sampleFtmsPacket).state =
      (if 0 < (FTMSProtocol.parseStatus sampleFtmsPacket).speed then 1
        else 0) ∧
    (FTMSProtocol.parseStatus sampleFtmsPacket).mode =
      (if 0 < (FTMSProtocol.parseStatus sampleFtmsPacket).speed then 1
        else 0) ∧
    (FTMSProtocol.parseStatus sampleFtmsPacket).isRunning =
      decide (0 < (FTMSProtocol.parseStatus sampleFtmsPacket).speed) :=
  ftms_derived_fields sampleFtmsPacket (by decide)

/-- Counterexample to C1 as stated: on `[0x02, 0x00, 0x64, 0x00]`
(average-speed flag set, buffer too short for it) the parse halts early
with speed 1.00 km/h but state 0, mode 0 and `isRunning = false`,
contradicting `state = (speed>0 ? 1 : 0)` and `is-running = speed>0`. -/
theorem ftms_derived_fields_counterexample :
    0 < (FTMSProtocol.parseStatus [0x02, 0x00, 0x64, 0x00]).speed ∧
    (FTMSProtocol.parseStatus [0x02, 0x00, 0x64, 0x00]).state = 0 ∧
    (FTMSProtocol.parseStatus [0x02, 0x00, 0x64, 0x00]).mode = 0 ∧
    (FTMSProtocol.parseStatus [0x02, 0x00, 0x64, 0x00]).isRunning = false := by
  have hf : readUint16LE ([0x02, 0x00, 0x64, 0x00] : ByteSeq) 0 = 2 := by
    decide
  have hsp : readUint16LE ([0x02, 0x00, 0x64, 0x00] : ByteSeq) 2 = 100 := by
    decide
  have hp : FTMSProtocol.parseStatus [0x02, 0x00, 0x64, 0x00] =
      { createDefaultState with speed := 1 } := by
    simp only [FTMSProtocol.parseStatus, ftmsProcess, ftmsInit, ftmsFinish,
      processFtmsFields, ftmsOptionalFields, applyFtmsField,
      FTMS_MIN_PACKET_LENGTH, FTMS_MIN_SPEED_LENGTH, FTMS_SPEED_SCALE,
      FTMS_FLAG_AVERAGE_SPEED, FTMS_FLAG_TOTAL_DISTANCE,
      FTMS_FLAG_INCLINATION, FTMS_FLAG_ELEVATION_GAIN,
      FTMS_FLAG_INSTANTANEOUS_PACE, FTMS_FLAG_AVERAGE_PACE,
      FTMS_FLAG_EXPENDED_ENERGY, FTMS_FLAG_HEART_RATE,
      FTMS_FLAG_METABOLIC_EQUIVALENT, FTMS_FLAG_ELAPSED_TIME, hf, hsp]
    simp +decide
  rw [hp]
  norm_num [createDefaultState]
